import Mathlib

/-!
Verification of the business-model canvas diagram editor.

The repository contains three variants of a React canvas on which entity
nodes (Company, Employee, Supplier) are dropped, dragged, renamed, connected
and deleted, plus a save/export path producing a JSON snapshot.

The embedding below translates the event handlers of the source into pure
state-transition functions:

* `Canvas.Basic`  — the hand-rolled variant (`BusinessModelCanvas` with
  `handleDrop`, `handleNodeDragStart`, `handleMouseMove`, `handleMouseUp`,
  `handleNameChange`, `handleBlur`): nodes only, manual drag state machine.
* `Canvas.Flow`   — the reactflow variant with edges (`FlowCanvas` with
  `onConnect`, `handleNodeDelete`): nodes, edges, the library `addEdge`.
* `Canvas.Modeler` — the reactflow variant with save/export (`FlowWrapper`
  with `onDrop`, `onNodesChange`, `handleSave`): JSON serialization.

The browser's non-deterministic id source (`crypto.randomUUID()`, with a
`Date.now()`-based fallback) is modelled by rendering a strictly increasing
counter threaded through the state; this preserves exactly the freshness
guarantee the id generator is used for.  Pixel coordinates are modelled as
integers (`Int`), since the handlers only add and subtract them.
-/

namespace Canvas

/-! ### Decimal rendering of the id counter is injective

`Nat.repr` renders a natural number in decimal via `Nat.toDigitsCore`.
The ids produced by the modelled generators embed such a rendering, so to
prove id freshness we need that the rendering is injective.  We build a
left inverse: a fold that re-reads the decimal digits.
-/

/-- Numeric value of a decimal digit character (inverse of `Nat.digitChar`
on digits below 10). -/
def digitVal (c : Char) : Nat := c.toNat - 48

/-- Re-read a list of decimal digit characters, most significant first,
starting from accumulator `a`. -/
def decodeDigits (a : Nat) (ds : List Char) : Nat :=
  ds.foldl (fun acc c => acc * 10 + digitVal c) a

/-! ### Entity registry (shared by all variants) -/

/-- The closed set of entity types (`type EntityType` in the source). -/
inductive EntityType
  | Company
  | Employee
  | Supplier
deriving DecidableEq

/-- Display metadata for each entity type (`interface EntityConfig`); the
icon component is a UI object and is represented by its imported name. -/
structure EntityConfig where
  icon : String
  color : String
  initialName : String
  description : String
deriving DecidableEq

/-- The registry (`ENTITY_CONFIG` in the source, identical in both
part_000 variants). -/
def ENTITY_CONFIG : EntityType → EntityConfig
  | .Company =>
    { icon := "Building2", color := "bg-indigo-500",
      initialName := "New Company", description := "The core business entity." }
  | .Employee =>
    { icon := "Users", color := "bg-green-500",
      initialName := "New Employee", description := "A resource entity." }
  | .Supplier =>
    { icon := "Truck", color := "bg-orange-500",
      initialName := "New Supplier", description := "An external partner entity." }

/-- The drag payload carries the entity type as a string under the
`application/reactflow` key; the drop handler indexes `ENTITY_CONFIG` with
it and proceeds only if the lookup succeeds.  This function models that
string-keyed lookup. -/
def entityTypeOfTag : String → Option EntityType
  | "Company" => some .Company
  | "Employee" => some .Employee
  | "Supplier" => some .Supplier
  | _ => none

/-- A DOM bounding rectangle, as used by `getBoundingClientRect()` (only
the fields the handlers read). -/
structure Rect where
  left : Int
  top : Int
deriving DecidableEq

/-- JavaScript's `String.prototype.trim()` (strip leading and trailing
whitespace), modelled by structural recursion on the character list. -/
def jsTrim (s : String) : String :=
  ⟨((s.data.dropWhile Char.isWhitespace).reverse.dropWhile
      Char.isWhitespace).reverse⟩

namespace Basic

/-- A diagram node of the basic variant (`interface Node` in the first
part_000 file). -/
structure Node where
  id : String
  type : EntityType
  name : String
  x : Int
  y : Int
deriving DecidableEq

/-- The component state of `BusinessModelCanvas`: the `nodes`, `isDragging`,
`draggedNodeId` and `dragOffset` React states, plus the counter that models
the entropy source of `generateUniqueId`. -/
structure State where
  nodes : List Node
  isDragging : Bool
  draggedNodeId : Option String
  dragOffset : Int × Int
  nextId : Nat
deriving DecidableEq

def initialState : State :=
  { nodes := [], isDragging := false, draggedNodeId := none,
    dragOffset := (0, 0), nextId := 0 }

/-- `generateUniqueId`: the source returns `crypto.randomUUID()` (or a
`Date.now()`-based fallback); the unique value is modelled as the decimal
rendering of a fresh counter. -/
def generateUniqueId (counter : Nat) : String := "node-" ++ Nat.repr counter

/-- `handleDrop`: reads the type tag from the drag payload, requires the
canvas ref to be mounted and the tag to resolve in `ENTITY_CONFIG`, then
creates a node at the pointer position relative to the canvas origin with
a 30px centering offset, clamped to non-negative coordinates. -/
def handleDrop (canvasRect : Option Rect) (tag : String)
    (clientX clientY : Int) (s : State) : State :=
  match canvasRect, entityTypeOfTag tag with
  | some rect, some nodeType =>
    let x := clientX - rect.left - 30
    let y := clientY - rect.top - 30
    let newNode : Node :=
      { id := generateUniqueId s.nextId
        type := nodeType
        name := (ENTITY_CONFIG nodeType).initialName
        x := max 0 x
        y := max 0 y }
    { s with nodes := s.nodes ++ [newNode], nextId := s.nextId + 1 }
  | _, _ => s

/-- `handleNodeDragStart`: records the offset from the pressed node's
top-left corner (`e.currentTarget.getBoundingClientRect()`) to the press
point, marks the node as dragged and enters the dragging state. -/
def handleNodeDragStart (clientX clientY : Int) (nodeRect : Rect)
    (nodeId : String) (s : State) : State :=
  { s with
      dragOffset := (clientX - nodeRect.left, clientY - nodeRect.top)
      draggedNodeId := some nodeId
      isDragging := true }

/-- `handleMouseMove`: guarded by `!isDragging || !draggedNodeId ||
!canvasRef.current` (an empty-string id is falsy in JS); repositions the
dragged node to the pointer position relative to the canvas origin minus
the recorded offset.  Note: no clamping is applied here. -/
def handleMouseMove (canvasRect : Option Rect) (clientX clientY : Int)
    (s : State) : State :=
  match s.draggedNodeId, canvasRect with
  | some id, some rect =>
    if s.isDragging ∧ id ≠ "" then
      let newX := clientX - rect.left - s.dragOffset.1
      let newY := clientY - rect.top - s.dragOffset.2
      { s with nodes := s.nodes.map (fun n =>
          if n.id == id then { n with x := newX, y := newY } else n) }
    else s
  | _, _ => s

/-- `handleMouseUp`: leaves the dragging state. -/
def handleMouseUp (s : State) : State :=
  { s with isDragging := false, draggedNodeId := none }

/-- `handleNameChange`: the store-level rename used by both the input's
`onChange` and (after the blur guard) `onBlur`; unconditionally rewrites
the `name` field of the node with the given id. -/
def handleNameChange (s : State) (id newName : String) : State :=
  { s with nodes := s.nodes.map (fun n =>
      if n.id == id then { n with name := newName } else n) }

/-- The composite rename operation performed when the name input loses
focus: `handleBlur` trims the raw input value and calls `handleNameChange`
only when the trimmed value is non-empty and differs from the node's
current name (`newName !== name && newName.length > 0`). -/
def renameNode (s : State) (id rawValue : String) : State :=
  match s.nodes.find? (fun n => n.id == id) with
  | none => s
  | some n =>
    let newName := jsTrim rawValue
    if newName ≠ n.name ∧ newName.length > 0 then
      handleNameChange s id newName
    else s

/-- Where a pointer-press on a `DiagramNode` can land. -/
inductive PressTarget
  | nameInput
  | nodeBody
deriving DecidableEq

/-- Pointer-press dispatch for `DiagramNode`.  The wrapper div registers
`onMouseDown={(e) => onDragStart(e, id)}`; the name input registers no
mousedown handler and does not stop propagation, so by DOM event bubbling a
press on the input reaches the wrapper's handler exactly as a press on the
node body does: both targets invoke `handleNodeDragStart` (whose
`e.preventDefault()` additionally suppresses the focus the input would
otherwise take). -/
def diagramNodeMouseDown (t : PressTarget) (clientX clientY : Int)
    (nodeRect : Rect) (nodeId : String) (s : State) : State :=
  match t with
  | .nameInput => handleNodeDragStart clientX clientY nodeRect nodeId s
  | .nodeBody => handleNodeDragStart clientX clientY nodeRect nodeId s

/-- A sidebar-to-canvas drop event, as consumed by `handleDrop`. -/
structure DropEvent where
  canvasRect : Option Rect
  tag : String
  clientX : Int
  clientY : Int

/-- A sequence of drop events applied to the empty initial canvas. -/
def runDrops (es : List DropEvent) : State :=
  es.foldl (fun s e => handleDrop e.canvasRect e.tag e.clientX e.clientY s)
    initialState

/-- Invariant carried through drop sequences: every node id is the
rendering of a counter value below the current one, and the ids are
pairwise distinct. -/
def DropInv (s : State) : Prop :=
  (∀ n ∈ s.nodes, ∃ k, k < s.nextId ∧ n.id = generateUniqueId k) ∧
  (s.nodes.map Node.id).Nodup

/-- A concrete dragging state: node A pressed 15px right and 10px down
from its top-left, a second node B untouched. -/
def c3State : State :=
  { nodes := [{ id := "node-0", type := .Company, name := "A", x := 0, y := 0 },
              { id := "node-1", type := .Employee, name := "B", x := 5, y := 5 }]
    isDragging := true
    draggedNodeId := some "node-0"
    dragOffset := (15, 10)
    nextId := 2 }

/-- A concrete store with a single node named "Bob". -/
def c4State : State :=
  { nodes := [{ id := "node-0", type := .Company, name := "Bob", x := 0, y := 0 }]
    isDragging := false
    draggedNodeId := none
    dragOffset := (0, 0)
    nextId := 1 }

/-- A concrete canvas holding one freshly dropped Company node. -/
def c9State : State :=
  handleDrop (some ⟨20, 20⟩) "Company" 130 130 initialState

end Basic

namespace Flow

/-- A node of the reactflow variant: the fields of `Node<CustomNodeData>`
created by `handleDrop` (the `onNameChange`/`onNodeDelete` callbacks stored
in `data` are the component's own handlers and are not data). -/
structure FlowNode where
  id : String
  type : EntityType
  x : Int
  y : Int
  name : String
deriving DecidableEq

/-- An edge as built by `onConnect`: the connection parameters plus the
generated id and `animated: true` (the `style` property holds only CSS). -/
structure Edge where
  id : String
  source : String
  sourceHandle : Option String
  target : String
  targetHandle : Option String
  animated : Bool
deriving DecidableEq

/-- The `FlowCanvas` state: the node and edge collections, plus the counter
modelling the entropy source of this variant's `generateUniqueId`. -/
structure FlowState where
  nodes : List FlowNode
  edges : List Edge
  nextEdgeId : Nat
deriving DecidableEq

/-- This variant's `generateUniqueId(prefix)`: returns
`` `${prefix}-${crypto.randomUUID()}` ``; the unique value is modelled as
the decimal rendering of a fresh counter. -/
def generateUniqueId (pre : String) (counter : Nat) : String :=
  pre ++ "-" ++ Nat.repr counter

/-- A connection object as delivered by reactflow to `onConnect`
(handles may be null). -/
structure Connection where
  source : String
  sourceHandle : Option String
  target : String
  targetHandle : Option String
deriving DecidableEq

/-- reactflow's `connectionExists` helper, used by `addEdge`: an edge with
the same source, target, source handle and target handle is already in the
list (a null handle matches a null handle). -/
def connectionExists (e : Edge) (edges : List Edge) : Bool :=
  edges.any (fun el =>
    el.source == e.source && el.target == e.target &&
    (el.sourceHandle == e.sourceHandle ||
      (el.sourceHandle == none && e.sourceHandle == none)) &&
    (el.targetHandle == e.targetHandle ||
      (el.targetHandle == none && e.targetHandle == none)))

/-- reactflow's `addEdge`, specialised to parameters that already carry an
id (as in this repository, which spreads the connection and sets `id`):
returns the list unchanged when source or target is falsy or when the same
connection already exists, else appends the edge. -/
def addEdge (e : Edge) (edges : List Edge) : List Edge :=
  if e.source == "" || e.target == "" then edges
  else if connectionExists e edges then edges
  else edges ++ [e]

/-- The edge object built inside `onConnect` from the connection
parameters: `{ ...params, id: generateUniqueId('edge'), animated: true }`. -/
def newEdgeOf (params : Connection) (counter : Nat) : Edge :=
  { id := generateUniqueId "edge" counter
    source := params.source
    sourceHandle := params.sourceHandle
    target := params.target
    targetHandle := params.targetHandle
    animated := true }

/-- `onConnect`: appends the new edge through the library's `addEdge`.
Note that no check against the node collection is performed. -/
def onConnect (params : Connection) (s : FlowState) : FlowState :=
  { s with
      edges := addEdge (newEdgeOf params s.nextEdgeId) s.edges
      nextEdgeId := s.nextEdgeId + 1 }

/-- `handleNodeDelete`: removes the connections first
(`edge.source !== id && edge.target !== id`), then the node itself
(`node.id !== id`). -/
def handleNodeDelete (id : String) (s : FlowState) : FlowState :=
  { s with
      edges := s.edges.filter (fun e => !(e.source == id) && !(e.target == id))
      nodes := s.nodes.filter (fun n => !(n.id == id)) }

/-- A query for the edges that reference a given node id as source or
target (the dangling edges a reader could observe after a delete). -/
def edgesReferencing (id : String) (s : FlowState) : List Edge :=
  s.edges.filter (fun e => e.source == id || e.target == id)

/-- A concrete graph: supplier node A connected to company node B. -/
def c1State : FlowState :=
  { nodes := [{ id := "A", type := .Supplier, x := 0, y := 0, name := "S" },
              { id := "B", type := .Company, x := 10, y := 10, name := "C" }]
    edges := [{ id := "edge-0", source := "A", sourceHandle := some "b",
                target := "B", targetHandle := some "a", animated := true }]
    nextEdgeId := 1 }

/-- A graph whose node store is empty. -/
def emptyFlowState : FlowState := { nodes := [], edges := [], nextEdgeId := 0 }

/-- A concrete graph with nodes A and B and no edges yet. -/
def c5State : FlowState :=
  { nodes := [{ id := "A", type := .Supplier, x := 0, y := 0, name := "S" },
              { id := "B", type := .Company, x := 9, y := 9, name := "C" }]
    edges := []
    nextEdgeId := 0 }

end Flow

namespace Modeler

/-- JSON values, the target of `JSON.stringify` in `handleSave`. -/
inductive Json where
  | null : Json
  | str : String → Json
  | num : Int → Json
  | bool : Bool → Json
  | obj : List (String × Json) → Json
  | arr : List Json → Json

/-- The keys of a JSON object (empty for non-objects). -/
def objKeys : Json → List String
  | .obj fields => fields.map Prod.fst
  | _ => []

/-- The `data` payload of a part_002 node: `{ label, name }`. -/
structure NodeData where
  label : String
  name : String
deriving DecidableEq

/-- A node of the part_002 variant.  `onDrop` creates it with `id`, `type`,
`position` and `data`; the remaining fields are the reactflow runtime
fields that `applyNodeChanges` (wired in `onNodesChange`) sets on the same
objects — the repository README's sample export shows them
(`width`, `height`, `selected`, `positionAbsolute`).  `JSON.stringify`
omits fields that are still `undefined` (`none`). -/
structure MNode where
  id : String
  type : String
  position : Int × Int
  data : NodeData
  width : Option Int := none
  height : Option Int := none
  selected : Option Bool := none
  positionAbsolute : Option (Int × Int) := none
deriving DecidableEq

/-- An edge of the part_002 variant as built by
`addEdge({ ...connection, type: 'customEdge', animated: true }, eds)`;
`selected` is set by `applyEdgeChanges` when the user selects the edge. -/
structure MEdge where
  id : String
  source : String
  sourceHandle : Option String
  target : String
  targetHandle : Option String
  type : String
  animated : Bool
  selected : Option Bool := none
deriving DecidableEq

/-- The `FlowWrapper` state: node and edge collections, the modal state and
the counter modelling `crypto.randomUUID()`. -/
structure MState where
  nodes : List MNode
  edges : List MEdge
  isModalOpen : Bool
  modalMessage : String
  nextId : Nat
deriving DecidableEq

def initialMState : MState :=
  { nodes := [], edges := [], isModalOpen := false, modalMessage := "",
    nextId := 0 }

/-- `crypto.randomUUID()` as used directly by part_002's `onDrop`,
modelled as the decimal rendering of a fresh counter. -/
def randomUUID (counter : Nat) : String := "uuid-" ++ Nat.repr counter

/-- `onDrop` of part_002: returns unchanged if the type tag, the label tag
or the wrapper bounds are missing (falsy); otherwise projects the pointer
position relative to the wrapper bounds through the library viewport
transform `project` (supplied by `useReactFlow`; identity when the viewport
is untransformed) and appends a node named `` `${label} 1` ``. -/
def onDrop (project : Int × Int → Int × Int) (bounds : Option Rect)
    (tyTag labelTag : String) (clientX clientY : Int) (s : MState) : MState :=
  match bounds with
  | none => s
  | some b =>
    if tyTag == "" || labelTag == "" then s
    else
      let position := project (clientX - b.left, clientY - b.top)
      let newNode : MNode :=
        { id := randomUUID s.nextId
          type := tyTag
          position := position
          data := { label := labelTag, name := labelTag ++ " 1" } }
      { s with nodes := s.nodes ++ [newNode], nextId := s.nextId + 1 }

/-- The reactflow node-change events that part_002's `onNodesChange` feeds
to the library's `applyNodeChanges`; restricted to the change kinds whose
effects appear in the repository README's documented export (dimensions,
selection, position). -/
inductive NodeChange where
  | dimensions (id : String) (width height : Int)
  | select (id : String) (selected : Bool)
  | position (id : String) (pos posAbs : Int × Int)

/-- Effect of one change on one node (the library matches on the id). -/
def applyNodeChange (c : NodeChange) (n : MNode) : MNode :=
  match c with
  | .dimensions id w h =>
    if n.id == id then { n with width := some w, height := some h } else n
  | .select id sel =>
    if n.id == id then { n with selected := some sel } else n
  | .position id pos posAbs =>
    if n.id == id then { n with position := pos, positionAbsolute := some posAbs }
    else n

/-- reactflow's `applyNodeChanges` restricted to the modelled change kinds. -/
def applyNodeChanges (cs : List NodeChange) (nodes : List MNode) : List MNode :=
  cs.foldl (fun ns c => ns.map (applyNodeChange c)) nodes

/-- `onNodesChange` of part_002: `setNodes(nds => applyNodeChanges(changes, nds))`. -/
def onNodesChange (cs : List NodeChange) (s : MState) : MState :=
  { s with nodes := applyNodeChanges cs s.nodes }

def serializePos (p : Int × Int) : Json :=
  .obj [("x", .num p.1), ("y", .num p.2)]

def jsonOfOptStr : Option String → Json
  | some v => .str v
  | none => .null

/-- `JSON.stringify` of one node object: the four fields set at creation,
followed by whichever runtime fields are defined (stringify omits
`undefined` fields). -/
def serializeNode (n : MNode) : Json :=
  .obj ([("id", .str n.id), ("type", .str n.type),
         ("position", serializePos n.position),
         ("data", .obj [("label", .str n.data.label), ("name", .str n.data.name)])]
    ++ (match n.width with | some w => [("width", Json.num w)] | none => [])
    ++ (match n.height with | some h => [("height", Json.num h)] | none => [])
    ++ (match n.selected with | some b => [("selected", Json.bool b)] | none => [])
    ++ (match n.positionAbsolute with
        | some p => [("positionAbsolute", serializePos p)] | none => []))

/-- `JSON.stringify` of one edge object (a null handle is stringified as
`null`, not omitted). -/
def serializeEdge (e : MEdge) : Json :=
  .obj ([("id", .str e.id), ("source", .str e.source),
         ("sourceHandle", jsonOfOptStr e.sourceHandle),
         ("target", .str e.target),
         ("targetHandle", jsonOfOptStr e.targetHandle),
         ("type", .str e.type), ("animated", .bool e.animated)]
    ++ (match e.selected with | some b => [("selected", Json.bool b)] | none => []))

/-- The snapshot `handleSave` stringifies: `const flowState = { nodes, edges }`. -/
def serializeFlow (s : MState) : Json :=
  .obj [("nodes", .arr (s.nodes.map serializeNode)),
        ("edges", .arr (s.edges.map serializeEdge))]

/-- Result of a `handleSave` invocation: the content passed to
`navigator.clipboard.writeText` (none when no write was attempted) and the
updated component state. -/
structure SaveOutcome where
  clipboardWrite : Option Json
  state : MState

/-- `handleSave` of part_002: on an empty canvas it only opens the modal
with the error message and returns before serializing; otherwise it
stringifies `{ nodes, edges }`, attempts the clipboard write (which the
host may reject, `clipboardOk = false`) and opens the modal with the
success or failure message. -/
def handleSave (clipboardOk : Bool) (s : MState) : SaveOutcome :=
  if s.nodes.isEmpty then
    { clipboardWrite := none
      state := { s with
        modalMessage :=
          "Cannot save. The canvas is empty. Drag some entities onto the board first!"
        isModalOpen := true } }
  else
    let flowJSON := serializeFlow s
    if clipboardOk then
      { clipboardWrite := some flowJSON
        state := { s with
          modalMessage :=
            "Success! Copied " ++ Nat.repr s.nodes.length ++ " entities and "
              ++ Nat.repr s.edges.length ++ " connections to clipboard as JSON."
          isModalOpen := true } }
    else
      { clipboardWrite := some flowJSON
        state := { s with
          modalMessage :=
            "Error: Failed to copy to clipboard. Ensure the page is served over HTTPS or use the console to view the state."
          isModalOpen := true } }

/-- The optional-field key contribution of a defined runtime field. -/
def optKey {α : Type} (k : String) (o : Option α) : List String :=
  match o with
  | some _ => [k]
  | none => []

/-- A concrete reachable state: one node dropped onto an untransformed
viewport, then measured by the renderer (a `dimensions` change with the
footprint from the README sample, 192 by 104). -/
def c6State : MState :=
  onNodesChange [NodeChange.dimensions "uuid-0" 192 104]
    (onDrop (fun p => p) (some ⟨20, 20⟩) "company" "Company" 270 120 initialMState)

end Modeler

/-! ## Theorems -/

/-! ### Injectivity of the rendered id counter -/

theorem digitVal_digitChar {d : Nat} (h : d < 10) :
    digitVal (Nat.digitChar d) = d := by
  interval_cases d <;> rfl

theorem decodeDigits_toDigitsCore :
    ∀ (fuel n a : Nat) (ds : List Char), n < fuel →
      ∃ p, 0 < p ∧ n < p ∧
        decodeDigits a (Nat.toDigitsCore 10 fuel n ds) =
          decodeDigits (a * p + n) ds := by
  intro fuel
  induction fuel with
  | zero => intro n a ds h; omega
  | succ fuel ih =>
    intro n a ds h
    by_cases h10 : n / 10 = 0
    · have hn : n < 10 := by omega
      refine ⟨10, by omega, hn, ?_⟩
      simp only [Nat.toDigitsCore]
      rw [if_pos h10]
      simp only [decodeDigits, List.foldl_cons, Nat.mod_eq_of_lt hn,
        digitVal_digitChar hn]
    · have hlt : n / 10 < fuel := by omega
      obtain ⟨p, hp, hnp, he⟩ := ih (n / 10) a (Nat.digitChar (n % 10) :: ds) hlt
      refine ⟨10 * p, by omega, by omega, ?_⟩
      simp only [Nat.toDigitsCore]
      rw [if_neg h10, he]
      simp only [decodeDigits, List.foldl_cons,
        digitVal_digitChar (Nat.mod_lt n (by omega))]
      congr 1
      have hmul : a * (10 * p) = a * p * 10 := by ring
      rw [hmul, Nat.add_mul]
      omega

theorem decodeDigits_repr (n : Nat) : decodeDigits 0 (Nat.repr n).data = n := by
  obtain ⟨p, hp, hnp, he⟩ :=
    decodeDigits_toDigitsCore (n + 1) n 0 [] (Nat.lt_succ_self n)
  simpa [Nat.repr, Nat.toDigits, List.asString, decodeDigits] using he

theorem natRepr_injective {m n : Nat} (h : Nat.repr m = Nat.repr n) : m = n := by
  rw [← decodeDigits_repr m, ← decodeDigits_repr n, h]

theorem string_append_cancel_left {s t u : String}
    (h : s ++ t = s ++ u) : t = u := by
  obtain ⟨ls⟩ := s; obtain ⟨lt⟩ := t; obtain ⟨lu⟩ := u
  have hd : ls ++ lt = ls ++ lu := congrArg String.data h
  exact congrArg String.mk (List.append_cancel_left hd)

theorem string_length_pos_iff (s : String) : 0 < s.length ↔ s ≠ "" := by
  obtain ⟨l⟩ := s
  have hlen : (String.mk l).length = l.length := rfl
  rw [hlen, List.length_pos]
  constructor
  · intro h he
    exact h (congrArg String.data he)
  · intro h hl
    exact h (congrArg String.mk hl)

namespace Basic

theorem generateUniqueId_injective {a b : Nat}
    (h : generateUniqueId a = generateUniqueId b) : a = b :=
  natRepr_injective (string_append_cancel_left h)

/-- The creating branch of `handleDrop`, resolved: with a mounted canvas
and a recognised tag the state gains exactly the new node. -/
theorem handleDrop_eq_of_tag (rect : Rect) {tag : String} {ety : EntityType}
    (htag : entityTypeOfTag tag = some ety) (px py : Int) (s : State) :
    handleDrop (some rect) tag px py s =
      { s with
          nodes := s.nodes ++
            [{ id := generateUniqueId s.nextId, type := ety,
               name := (ENTITY_CONFIG ety).initialName,
               x := max 0 (px - rect.left - 30),
               y := max 0 (py - rect.top - 30) }]
          nextId := s.nextId + 1 } := by
  simp [handleDrop, htag]

/-- C2: in the basic variant, dropping a registered entity-type tag at
pointer (px, py) over a canvas whose origin is at (left, top) appends a
new node at position (max 0 (px - left - 30), max 0 (py - top - 30)) with
the registry's initial name. -/
theorem handleDrop_creates_clamped_node (rect : Rect) (tag : String)
    (ety : EntityType) (htag : entityTypeOfTag tag = some ety)
    (px py : Int) (s : State) :
    (handleDrop (some rect) tag px py s).nodes =
      s.nodes ++
        [{ id := generateUniqueId s.nextId, type := ety,
           name := (ENTITY_CONFIG ety).initialName,
           x := max 0 (px - rect.left - 30),
           y := max 0 (py - rect.top - 30) }] := by
  rw [handleDrop_eq_of_tag rect htag px py s]

/-- C2 witness: dropping a "Supplier" tag at pointer (130, 130) over a
canvas with origin (20, 20) creates a node at (80, 80) named
"New Supplier". -/
theorem handleDrop_creates_clamped_node_witness :
    entityTypeOfTag "Supplier" = some EntityType.Supplier ∧
    (handleDrop (some ⟨20, 20⟩) "Supplier" 130 130 initialState).nodes =
      [{ id := generateUniqueId 0, type := EntityType.Supplier,
         name := "New Supplier", x := 80, y := 80 }] := by
  refine ⟨rfl, ?_⟩
  rw [handleDrop_creates_clamped_node ⟨20, 20⟩ "Supplier" EntityType.Supplier
    rfl 130 130 initialState]
  decide

/-- C3: while in the dragging state, a pointer-move repositions the
dragged node to the pointer position relative to the canvas origin minus
the recorded press offset, and every other node is unchanged. -/
theorem handleMouseMove_moves_dragged (rect : Rect) (px py : Int) (s : State)
    (id : String) (hdrag : s.isDragging = true)
    (hid : s.draggedNodeId = some id) (hne : id ≠ "") :
    (handleMouseMove (some rect) px py s).nodes =
      s.nodes.map (fun n =>
        if n.id == id then
          { n with x := px - rect.left - s.dragOffset.1,
                   y := py - rect.top - s.dragOffset.2 }
        else n) ∧
    ∀ n ∈ s.nodes, n.id ≠ id →
      n ∈ (handleMouseMove (some rect) px py s).nodes := by
  have hmain :
      (handleMouseMove (some rect) px py s).nodes =
        s.nodes.map (fun n =>
          if n.id == id then
            { n with x := px - rect.left - s.dragOffset.1,
                     y := py - rect.top - s.dragOffset.2 }
          else n) := by
    simp [handleMouseMove, hid, hdrag, hne]
  refine ⟨hmain, ?_⟩
  intro n hn hne2
  rw [hmain]
  have : (if n.id == id then
      ({ n with x := px - rect.left - s.dragOffset.1,
                y := py - rect.top - s.dragOffset.2 } : Node)
    else n) = n := by
    rw [if_neg]
    simp [hne2]
  exact this ▸ List.mem_map_of_mem _ hn

/-- C3 witness: with node A pressed 15px right and 10px down from its
top-left, moving the pointer to (200, 200) over a canvas with origin
(0, 0) leaves A at (185, 190) and B untouched. -/
theorem handleMouseMove_moves_dragged_witness :
    c3State.isDragging = true ∧ c3State.draggedNodeId = some "node-0" ∧
    "node-0" ≠ "" ∧
    (handleMouseMove (some ⟨0, 0⟩) 200 200 c3State).nodes =
      [{ id := "node-0", type := .Company, name := "A", x := 185, y := 190 },
       { id := "node-1", type := .Employee, name := "B", x := 5, y := 5 }] := by
  refine ⟨rfl, rfl, by decide, ?_⟩
  rw [(handleMouseMove_moves_dragged ⟨0, 0⟩ 200 200 c3State "node-0" rfl rfl
    (by decide)).1]
  decide

/-- C4 counterexample: with the node's current name "Bob", the input value
"Bob " is neither empty after trimming nor equal to the current name, yet
the rename is a no-op, because the code compares and stores the trimmed
value. -/
theorem renameNode_trim_counterexample :
    "Bob " ≠ "Bob" ∧ jsTrim "Bob " ≠ "" ∧
    renameNode c4State "node-0" "Bob " = c4State := by
  refine ⟨by decide, by decide, by decide⟩

/-- C4 (amended): the blur-path rename is a no-op when the trimmed new
name is empty or equals the node's current name; otherwise it replaces
exactly the name field with the trimmed new name. -/
theorem renameNode_spec (s : State) (id newName : String) (n : Node)
    (hfind : s.nodes.find? (fun m => m.id == id) = some n) :
    ((jsTrim newName = "" ∨ jsTrim newName = n.name) →
      renameNode s id newName = s) ∧
    (jsTrim newName ≠ "" → jsTrim newName ≠ n.name →
      renameNode s id newName =
        { s with nodes := s.nodes.map (fun m =>
            if m.id == id then { m with name := jsTrim newName } else m) }) := by
  constructor
  · intro h
    simp only [renameNode, hfind]
    rw [if_neg]
    rintro ⟨h1, h2⟩
    rcases h with h | h
    · rw [h] at h2
      simp at h2
    · exact h1 h
  · intro h1 h2
    simp only [renameNode, hfind]
    rw [if_pos ⟨h2, (string_length_pos_iff (jsTrim newName)).mpr h1⟩]
    rfl

/-- C4 witness: renaming "Bob" with a blank input is a no-op; renaming
with " Ann " stores the trimmed "Ann". -/
theorem renameNode_spec_witness :
    c4State.nodes.find? (fun m => m.id == "node-0") =
      some { id := "node-0", type := .Company, name := "Bob", x := 0, y := 0 } ∧
    renameNode c4State "node-0" "   " = c4State ∧
    renameNode c4State "node-0" " Ann " =
      { c4State with nodes :=
        [{ id := "node-0", type := .Company, name := "Ann", x := 0, y := 0 }] } := by
  refine ⟨by decide, ?_, ?_⟩
  · exact (renameNode_spec c4State "node-0" "   "
      { id := "node-0", type := .Company, name := "Bob", x := 0, y := 0 }
      (by decide)).1 (Or.inl (by decide))
  · rw [(renameNode_spec c4State "node-0" " Ann "
      { id := "node-0", type := .Company, name := "Bob", x := 0, y := 0 }
      (by decide)).2 (by decide) (by decide)]
    decide

/-- C7 counterexample: a Supplier node is created at (80, 80) by a clamped
drop, but dragging it (press offset (15, 10)) and moving the pointer to
client (25, 20) over the canvas with origin (20, 20) moves it to
(-10, -10): pointer moves apply no clamping, so the non-negativity
invariant is not preserved. -/
theorem drag_violates_nonneg_counterexample :
    ((handleMouseMove (some ⟨20, 20⟩) 25 20
        (handleNodeDragStart 115 110 ⟨100, 100⟩ "node-0"
          (handleDrop (some ⟨20, 20⟩) "Supplier" 130 130 initialState))).nodes.map
      (fun n => (n.x, n.y))) = [(-10, -10)] := by
  decide

/-- C7 (amended): node creation via drop always yields non-negative
coordinates; the invariant holds at creation (drag moves do not preserve
it). -/
theorem handleDrop_position_nonneg (c : Option Rect) (tag : String)
    (px py : Int) (s : State) (n : Node)
    (hmem : n ∈ (handleDrop c tag px py s).nodes) (hnew : n ∉ s.nodes) :
    0 ≤ n.x ∧ 0 ≤ n.y := by
  rcases c with _ | rect
  · exact absurd hmem hnew
  · rcases htag : entityTypeOfTag tag with _ | ety
    · rw [show handleDrop (some rect) tag px py s = s from by
        simp [handleDrop, htag]] at hmem
      exact absurd hmem hnew
    · rw [handleDrop_eq_of_tag rect htag px py s] at hmem
      rcases List.mem_append.mp hmem with hold | hnewmem
      · exact absurd hold hnew
      · rcases List.mem_singleton.mp hnewmem with rfl
        exact ⟨le_max_left 0 _, le_max_left 0 _⟩

/-- C7 witness: the node created by the Supplier drop at (130, 130) has
non-negative coordinates (80, 80). -/
theorem handleDrop_position_nonneg_witness :
    ({ id := generateUniqueId 0, type := EntityType.Supplier,
       name := "New Supplier", x := 80, y := 80 } : Node)
      ∈ (handleDrop (some ⟨20, 20⟩) "Supplier" 130 130 initialState).nodes ∧
    (0 : Int) ≤ 80 := by
  refine ⟨by decide, ?_⟩
  exact (handleDrop_position_nonneg (some ⟨20, 20⟩) "Supplier" 130 130
    initialState
    { id := generateUniqueId 0, type := EntityType.Supplier,
      name := "New Supplier", x := 80, y := 80 }
    (by decide) (by decide)).1.trans_eq rfl

theorem dropInv_initial : DropInv initialState := by
  constructor <;> simp [initialState]

theorem handleDrop_preserves_inv (c : Option Rect) (tag : String)
    (px py : Int) (s : State) (h : DropInv s) :
    DropInv (handleDrop c tag px py s) := by
  rcases c with _ | rect
  · simpa [handleDrop] using h
  · rcases htag : entityTypeOfTag tag with _ | ety
    · rw [show handleDrop (some rect) tag px py s = s from by
        simp [handleDrop, htag]]
      exact h
    · rw [handleDrop_eq_of_tag rect htag px py s]
      obtain ⟨hids, hnodup⟩ := h
      constructor
      · intro n hn
        rcases List.mem_append.mp hn with hold | hnewmem
        · obtain ⟨k, hk, hkid⟩ := hids n hold
          exact ⟨k, by show k < s.nextId + 1; omega, hkid⟩
        · rcases List.mem_singleton.mp hnewmem with rfl
          exact ⟨s.nextId, by show s.nextId < s.nextId + 1; omega, rfl⟩
      · show ((s.nodes ++ [_]).map Node.id).Nodup
        rw [List.map_append, List.nodup_append]
        refine ⟨hnodup, List.nodup_singleton _, ?_⟩
        intro a ha hb
        simp only [List.map_cons, List.map_nil, List.mem_singleton] at hb
        subst hb
        rcases List.mem_map.mp ha with ⟨m, hm, hmid⟩
        obtain ⟨k, hk, hkid⟩ := hids m hm
        rw [hkid] at hmid
        have := generateUniqueId_injective hmid
        omega

/-- C8: for every sequence of drop events (the `addNode` calls of the
basic variant), the ids of the resulting nodes are pairwise distinct. -/
theorem addNode_ids_pairwise_distinct (es : List DropEvent) :
    ((runDrops es).nodes.map Node.id).Nodup := by
  suffices h : ∀ s, DropInv s →
      DropInv (es.foldl
        (fun s e => handleDrop e.canvasRect e.tag e.clientX e.clientY s) s) by
    exact (h initialState dropInv_initial).2
  induction es with
  | nil => exact fun s hs => hs
  | cons e es ih =>
    exact fun s hs => ih _ (handleDrop_preserves_inv _ _ _ _ _ hs)

/-- C9 (code at the failing input): a pointer-press on the name input of a
`DiagramNode` bubbles to the wrapper's onMouseDown, so the drag state
machine leaves Idle: afterwards `isDragging` is true and the node is the
dragged one, contradicting the required suppression. -/
theorem input_press_starts_drag :
    (diagramNodeMouseDown .nameInput 100 100 ⟨90, 95⟩ "node-0" c9State).isDragging
        = true ∧
    (diagramNodeMouseDown .nameInput 100 100 ⟨90, 95⟩ "node-0" c9State).draggedNodeId
        = some "node-0" := by
  exact ⟨rfl, rfl⟩

end Basic

namespace Flow

theorem flowGenId_injective (pre : String) {a b : Nat}
    (h : generateUniqueId pre a = generateUniqueId pre b) : a = b :=
  natRepr_injective (string_append_cancel_left h)

/-- C1: deleting a node present in the graph leaves no edge whose source
or target is that id (a query for edges referencing the id returns the
empty set), and a node remains present exactly when it was present before
and is not the deleted one — in particular the other endpoint of any
removed edge survives unchanged. -/
theorem deleteNode_cascade (s : FlowState) (id : String)
    (hmem : ∃ n ∈ s.nodes, n.id = id) :
    edgesReferencing id (handleNodeDelete id s) = [] ∧
    (∀ n, n ∈ (handleNodeDelete id s).nodes ↔ n ∈ s.nodes ∧ n.id ≠ id) ∧
    (∀ n ∈ (handleNodeDelete id s).nodes, n.id ≠ id) := by
  refine ⟨?_, ?_, ?_⟩
  · unfold edgesReferencing
    rw [List.filter_eq_nil_iff]
    intro e he
    simp only [handleNodeDelete, List.mem_filter] at he
    obtain ⟨-, hcond⟩ := he
    simp only [Bool.and_eq_true, Bool.not_eq_true', beq_eq_false_iff_ne] at hcond
    simp [hcond.1, hcond.2]
  · intro n
    simp [handleNodeDelete, List.mem_filter]
  · intro n hn
    simp only [handleNodeDelete, List.mem_filter,
      Bool.not_eq_true', beq_eq_false_iff_ne] at hn
    exact hn.2

/-- C1 witness: deleting node A from the graph with edge A→B removes the
edge and keeps B. -/
theorem deleteNode_cascade_witness :
    (∃ n ∈ c1State.nodes, n.id = "A") ∧
    edgesReferencing "A" (handleNodeDelete "A" c1State) = [] ∧
    ({ id := "B", type := .Company, x := 10, y := 10, name := "C" } : FlowNode)
      ∈ (handleNodeDelete "A" c1State).nodes := by
  have h := deleteNode_cascade c1State "A" (by decide)
  exact ⟨by decide, h.1, (h.2.1 _).mpr (by decide)⟩

/-- C5 counterexample: with an empty node store — so the source id "A" is
certainly absent — the claimed `InvalidEndpoint` failure does not happen:
`onConnect` appends an edge anyway, because the handler performs no check
against the node collection. -/
theorem connect_missing_endpoint_counterexample :
    (¬ ∃ n ∈ emptyFlowState.nodes, n.id = "A") ∧
    (onConnect ⟨"A", some "b", "B", some "a"⟩ emptyFlowState).edges =
      [{ id := generateUniqueId "edge" 0, source := "A",
         sourceHandle := some "b", target := "B", targetHandle := some "a",
         animated := true }] := by
  exact ⟨by decide, by decide⟩

/-- C5 (amended): `onConnect` performs no endpoint-existence check; for a
connection with non-empty endpoint ids and no already-existing identical
connection it appends exactly one new edge whose id is fresh (under the
invariant that existing edge ids come from earlier counter values), with
the given source and target, and modifies no node and no existing edge. -/
theorem onConnect_appends_fresh (s : FlowState) (params : Connection)
    (hs : params.source ≠ "") (ht : params.target ≠ "")
    (hdup : connectionExists (newEdgeOf params s.nextEdgeId) s.edges = false)
    (hids : ∀ e ∈ s.edges, ∃ k, k < s.nextEdgeId ∧
      e.id = generateUniqueId "edge" k) :
    (onConnect params s).edges = s.edges ++ [newEdgeOf params s.nextEdgeId] ∧
    (onConnect params s).nodes = s.nodes ∧
    (newEdgeOf params s.nextEdgeId).source = params.source ∧
    (newEdgeOf params s.nextEdgeId).target = params.target ∧
    ∀ e ∈ s.edges, e.id ≠ (newEdgeOf params s.nextEdgeId).id := by
  refine ⟨?_, rfl, rfl, rfl, ?_⟩
  · show addEdge (newEdgeOf params s.nextEdgeId) s.edges = _
    unfold addEdge
    rw [if_neg, if_neg]
    · rw [hdup]
      simp
    · show ¬((newEdgeOf params s.nextEdgeId).source == ""
        || (newEdgeOf params s.nextEdgeId).target == "") = true
      simp [newEdgeOf, hs, ht]
  · intro e he hid
    obtain ⟨k, hk, hkid⟩ := hids e he
    rw [hkid] at hid
    have : k = s.nextEdgeId := flowGenId_injective "edge" hid
    omega

/-- C5 witness: connecting node A (source) to node B (target) in a graph
holding both nodes and no edges yields exactly one edge with source A and
target B. -/
theorem onConnect_appends_fresh_witness :
    ("A" : String) ≠ "" ∧ ("B" : String) ≠ "" ∧
    connectionExists (newEdgeOf ⟨"A", some "b", "B", some "a"⟩ 0)
      c5State.edges = false ∧
    (∀ e ∈ c5State.edges, ∃ k, k < c5State.nextEdgeId ∧
      e.id = generateUniqueId "edge" k) ∧
    (onConnect ⟨"A", some "b", "B", some "a"⟩ c5State).edges =
      [newEdgeOf ⟨"A", some "b", "B", some "a"⟩ 0] ∧
    (onConnect ⟨"A", some "b", "B", some "a"⟩ c5State).nodes = c5State.nodes := by
  have h := onConnect_appends_fresh c5State ⟨"A", some "b", "B", some "a"⟩
    (by decide) (by decide) (by decide) (by decide)
  refine ⟨by decide, by decide, by decide, by decide, ?_, h.2.1⟩
  rw [h.1]
  decide

end Flow

namespace Modeler

/-- C6 counterexample: on the reachable state holding one dropped node that
the renderer has measured, the saved snapshot's node object carries the
reactflow runtime fields `width` and `height` in addition to `id`, `type`,
`position` and `data` — so the serialized node does not carry exactly the
four claimed fields. -/
theorem serialize_runtime_fields_counterexample :
    (handleSave true c6State).clipboardWrite = some (serializeFlow c6State) ∧
    c6State.nodes.map (fun n => objKeys (serializeNode n)) =
      [["id", "type", "position", "data", "width", "height"]] ∧
    (["id", "type", "position", "data", "width", "height"] : List String) ≠
      ["id", "type", "position", "data"] := by
  refine ⟨rfl, by decide, by decide⟩

/-- C6 (amended): the snapshot serialized by `handleSave` is
`{ nodes, edges }` where each node object carries `id`, `type`,
`position`, `data` plus exactly those reactflow runtime fields that are
present on the node (`width`, `height`, `selected`, `positionAbsolute`),
and each edge object carries `id`, `source`, `sourceHandle`, `target`,
`targetHandle`, `type`, `animated` plus `selected` when present. -/
theorem serializedFields (n : MNode) (e : MEdge) :
    objKeys (serializeNode n) =
      ["id", "type", "position", "data"] ++ optKey "width" n.width ++
        optKey "height" n.height ++ optKey "selected" n.selected ++
        optKey "positionAbsolute" n.positionAbsolute ∧
    objKeys (serializeEdge e) =
      ["id", "source", "sourceHandle", "target", "targetHandle", "type",
       "animated"] ++ optKey "selected" e.selected := by
  constructor
  · rcases n with ⟨i, t, p, d, w, h, sel, pa⟩
    cases w <;> cases h <;> cases sel <;> cases pa <;> rfl
  · rcases e with ⟨i, src, sh, tgt, th, t, a, sel⟩
    cases sel <;> rfl

/-- C10: saving an empty canvas writes nothing to the clipboard, leaves
the node and edge collections unchanged, and only opens the notification
modal with the error message; a clipboard write is attempted exactly when
at least one node exists. -/
theorem handleSave_empty_no_export (ok : Bool) (s : MState) :
    ((handleSave ok s).clipboardWrite = none ↔ s.nodes = []) ∧
    (handleSave ok s).state.nodes = s.nodes ∧
    (handleSave ok s).state.edges = s.edges ∧
    (s.nodes = [] →
      (handleSave ok s).state.isModalOpen = true ∧
      (handleSave ok s).state.modalMessage =
        "Cannot save. The canvas is empty. Drag some entities onto the board first!") := by
  rcases hs : s.nodes with _ | ⟨n, ns⟩
  · simp [handleSave, List.isEmpty, hs]
  · cases ok <;> simp [handleSave, List.isEmpty, hs]

/-- C10 witness: saving the initial (empty) canvas performs no clipboard
write, keeps the collections empty and opens the modal. -/
theorem handleSave_empty_no_export_witness :
    (handleSave true initialMState).clipboardWrite = none ∧
    (handleSave true initialMState).state.nodes = [] ∧
    (handleSave true initialMState).state.edges = [] ∧
    (handleSave true initialMState).state.isModalOpen = true := by
  have h := handleSave_empty_no_export true initialMState
  exact ⟨h.1.mpr rfl, h.2.1.trans rfl, h.2.2.1.trans rfl, (h.2.2.2 rfl).1⟩

end Modeler

end Canvas
